import Mathlib

/-
Verification of the lifecycle and concurrency core of the Split OpenFeature
Go provider (package split).

The Go code is shallowly embedded: the provider struct becomes a record of the
fields the lifecycle logic reads and writes, methods become state-passing
functions, and the nondeterministic outcomes of external collaborators
(the Split SDK's BlockUntilReady, the caller's context, the SDK factory's
ready bit) are passed in as explicit environment records.  Machine integers
(int64 change numbers) are modelled as Int; only equality of change numbers
is ever used, so width does not matter.  Go maps are modelled as association
lists with a no-duplicate-keys hypothesis where a claim needs it.
-/

namespace SplitOFP

/-- Lifecycle notification types used by the provider: of.ProviderReady,
of.ProviderError, of.ProviderConfigChange. -/
inductive OFEventType where
  | providerReady
  | providerError
  | providerConfigChange
  deriving DecidableEq, Repr

/-- An of.Event value: provider name, event type and the detail message. -/
structure OFEvent where
  providerName : String
  eventType : OFEventType
  message : String
  deriving DecidableEq, Repr

/-- The two of.State values Status can return: of.NotReadyState and
of.ReadyState (part_006 lines 444-464 never returns any other state). -/
inductive OFState where
  | notReady
  | ready
  deriving DecidableEq, Repr

/-- The two Go context errors: context.Canceled and context.DeadlineExceeded. -/
inductive CtxErr where
  | canceled
  | deadlineExceeded
  deriving DecidableEq, Repr

/-- Error strings of the Go context package, as returned by ctx.Err().Error(). -/
def ctxErrMessage : CtxErr → String
  | .canceled => "context canceled"
  | .deadlineExceeded => "context deadline exceeded"

/-- constants.go: eventChannelBuffer is the capacity of the provider's
buffered event channel. -/
def eventChannelBuffer : Nat := 128

/-- constants.go: controlTreatment is the treatment Split returns when a flag
does not exist or evaluation fails. -/
def controlTreatment : String := "control"

/-- The provider state touched by the lifecycle core (provider.go struct
Provider).  factoryPresent and factoryReady model the wrapped SDK factory
pointer and its IsReady bit; clientPresent models the client pointer that
ShutdownWithContext nulls out; eventQueue models the contents of the buffered
eventStream channel; the two Closed flags record which channels have been
closed.  blockUntilReadySecs is splitConfig.BlockUntilReady, used only to
format error messages. -/
structure Prov where
  shutdown : Bool
  factoryPresent : Bool
  factoryReady : Bool
  clientPresent : Bool
  eventQueue : List OFEvent
  eventStreamClosed : Bool
  stopMonitorClosed : Bool
  blockUntilReadySecs : Nat
  deriving DecidableEq, Repr

/-- The provider state produced by New (provider.go lines 212-221): shutdown
flag clear, factory and client set, channels fresh, event buffer empty. -/
def newProvider (blockSecs : Nat) : Prov :=
  { shutdown := false
    factoryPresent := true
    factoryReady := false
    clientPresent := true
    eventQueue := []
    eventStreamClosed := false
    stopMonitorClosed := false
    blockUntilReadySecs := blockSecs }

/-- Status (part_006 lines 444-464): reads the shutdown flag and the factory
under the read lock; shutdown forces NotReadyState, otherwise a present and
ready factory gives ReadyState, and anything else gives NotReadyState. -/
def Status (p : Prov) : OFState :=
  if p.shutdown then .notReady
  else if p.factoryPresent && p.factoryReady then .ready
  else .notReady

/-- Possible outcomes of one emitEvent call.  panicked marks a send on a
closed channel, which panics in Go even inside a select with a default. -/
inductive EmitOutcome where
  | sent
  | droppedWarned
  | skippedShutdown
  | panicked
  deriving DecidableEq, Repr

/-- emitEvent (lifecycle_edge_cases_test.go lines 984-1004): fast-path atomic
check of the shutdown flag, then the read lock, then a second check of the
flag, then a non-blocking select that sends if the buffer has room and drops
the event with a warning otherwise.  Sequentially the two flag reads see the
same value; both are kept to mirror the source's double-check discipline. -/
def emitEvent (p : Prov) (e : OFEvent) : Prov × EmitOutcome :=
  if p.shutdown then (p, .skippedShutdown)
  else if p.shutdown then (p, .skippedShutdown)
  else if p.eventStreamClosed then (p, .panicked)
  else if p.eventQueue.length < eventChannelBuffer then
    ({ p with eventQueue := p.eventQueue ++ [e] }, .sent)
  else (p, .droppedWarned)

/-- A sequence of emitEvent calls with no consumer draining the channel,
keeping only the state. -/
def emitMany (p : Prov) : List OFEvent → Prov
  | [] => p
  | e :: rest => emitMany (emitEvent p e).1 rest

/-- Go map lookup m[k] over an association-list model of a map. -/
def goLookup {β : Type} (k : String) : List (String × β) → Option β
  | [] => none
  | (k1, v) :: rest => if k1 = k then some v else goLookup k rest

/-- splitsChanged (lifecycle_edge_cases_test.go lines 1096-1107): a length
mismatch counts as changed; otherwise ranging over current, a name absent
from old or carrying a different change number counts as changed. -/
def splitsChanged (old current : List (String × Int)) : Bool :=
  if old.length ≠ current.length then true
  else current.any fun entry =>
    match goLookup entry.1 old with
    | none => true
    | some oldChangeNum => oldChangeNum ≠ entry.2

/-- The PROVIDER_ERROR event emitted by InitWithContext on a failure path. -/
def errEvent (msg : String) : OFEvent :=
  { providerName := "Split", eventType := .providerError, message := msg }

/-- The PROVIDER_READY event emitted by InitWithContext on success
(part_006 lines 253-259). -/
def readyEvent : OFEvent :=
  { providerName := "Split"
    eventType := .providerReady
    message := "Split provider initialized successfully" }

/-- Error message built at part_006 lines 168 and 195 when BlockUntilReady
reports failure. -/
def readyFailMsg (secs : Nat) (e : String) : String :=
  "split SDK failed to become ready within " ++ toString secs ++ " seconds: " ++ e

/-- Error message built at part_006 line 183 when the context fires while the
readiness wait is still pending. -/
def cancelMsg (e : CtxErr) : String :=
  "initialization canceled: " ++ ctxErrMessage e

/-- Environment of one InitWithContext call: the outcomes of its external
collaborators and the interleaving choices the Go scheduler makes.
ctxDoneFirst says which arm of the outer select fires; readyAtCtxDone is the
inner non-blocking read of readyErr when the context won (none when the
readiness wait is still pending, some r when BlockUntilReady had finished
with result r, where r is none on success and some message on failure);
readyResult is BlockUntilReady's result when it wins the outer select;
shutdownDuringWait says whether a concurrent ShutdownWithContext set the
shutdown flag during the wait; factoryReadyAfterWait is the value of
factory.IsReady() read at the final confirmation (part_006 line 227). -/
structure InitEnv where
  ctxDoneFirst : Bool
  readyAtCtxDone : Option (Option String)
  readyResult : Option String
  ctxErr : CtxErr
  shutdownDuringWait : Bool
  factoryReadyAfterWait : Bool
  deriving DecidableEq, Repr

/-- The distinguishable results of InitWithContext, one per return site in
part_006 lines 114-266. -/
inductive InitResult where
  | ok
  | alreadyShutdown
  | sdkNotReady (e : String)
  | cancelled (e : CtxErr)
  | shutdownDuringInit
  | factoryNotReadyAfter
  deriving DecidableEq, Repr

/-- The tail of the singleflight body after the readiness wait has been won
(part_006 lines 211-262): under the write lock, re-check the shutdown flag
(which a concurrent shutdown may have set during the wait), re-confirm
factory.IsReady(), then mark readiness, start the monitor and emit the ready
event.  calls counts the BlockUntilReady goroutines spawned so far. -/
def initAfterWait (p : Prov) (env : InitEnv) (calls : Nat) : Prov × InitResult × Nat :=
  let p1 : Prov := { p with shutdown := p.shutdown || env.shutdownDuringWait }
  if p1.shutdown then (p1, .shutdownDuringInit, calls)
  else if !env.factoryReadyAfterWait then
    let p2 :=
      (emitEvent p1 (errEvent "split SDK BlockUntilReady succeeded but factory not ready")).1
    (p2, .factoryNotReadyAfter, calls)
  else
    let p2 : Prov := { p1 with factoryReady := true }
    let p3 := (emitEvent p2 readyEvent).1
    (p3, .ok, calls)

/-- The singleflight body of InitWithContext (the closure passed to
initGroup.Do at part_006 lines 137-263): double-check the ready fast path,
spawn one BlockUntilReady goroutine, then select between ctx.Done() and
readyErr; when the context fires first, re-check readyErr non-blockingly and
let an already-completed wait decide the outcome.  The third component counts
physical BlockUntilReady invocations. -/
def initBody (p : Prov) (env : InitEnv) : Prov × InitResult × Nat :=
  if p.factoryPresent && p.factoryReady then (p, .ok, 0)
  else
    if env.ctxDoneFirst then
      match env.readyAtCtxDone with
      | some (some e) =>
          let p1 := (emitEvent p (errEvent (readyFailMsg p.blockUntilReadySecs e))).1
          (p1, .sdkNotReady e, 1)
      | some none => initAfterWait p env 1
      | none =>
          let p1 := (emitEvent p (errEvent (cancelMsg env.ctxErr))).1
          (p1, .cancelled env.ctxErr, 1)
    else
      match env.readyResult with
      | some e =>
          let p1 := (emitEvent p (errEvent (readyFailMsg p.blockUntilReadySecs e))).1
          (p1, .sdkNotReady e, 1)
      | none => initAfterWait p env 1

/-- InitWithContext (part_006 lines 114-266): under initMu, fail immediately
when the shutdown flag is set, return success on the already-ready fast path,
and otherwise run the singleflight body. -/
def initWithContext (p : Prov) (env : InitEnv) : Prov × InitResult × Nat :=
  if p.shutdown then (p, .alreadyShutdown, 0)
  else if p.factoryPresent && p.factoryReady then (p, .ok, 0)
  else initBody p env

/-- Environment of one ShutdownWithContext call: whether the caller's context
fires before the monitor-stop confirmation and before the destroy goroutine
completes, and which context error it carries. -/
structure ShutEnv where
  ctxDoneBeforeMonitorDone : Bool
  ctxDoneBeforeDestroyDone : Bool
  ctxErr : CtxErr
  deriving DecidableEq, Repr

/-- Results of ShutdownWithContext: nil, a context error, or a panic (close
of an already-closed channel, which the compare-and-swap guard prevents). -/
inductive ShutResult where
  | ok
  | ctxError (e : CtxErr)
  | panicked
  deriving DecidableEq, Repr

/-- ShutdownWithContext (part_006 lines 331-433): a compare-and-swap on the
shutdown flag returns nil immediately on every call after the first; the
first call closes stopMonitor under the write lock, waits for monitorDone
only when the provider was initialized (racing the context), joins the init
goroutines, and runs a tracked destroy goroutine that nulls the client and
closes the event channel under the write lock before destroying the client.
The destroy goroutine's state changes are applied even when the context fires
first, because the goroutine keeps running and completes them; the returned
error then reports the deadline while the state stays shut down. -/
def shutdownWithContext (p : Prov) (env : ShutEnv) : Prov × ShutResult :=
  if p.shutdown then (p, .ok)
  else
    let p1 : Prov := { p with shutdown := true }
    if p1.stopMonitorClosed then (p1, .panicked)
    else
      let p2 : Prov := { p1 with stopMonitorClosed := true }
      let wasInitialized := p2.factoryPresent && p2.factoryReady
      let monitorErr : Option CtxErr :=
        if wasInitialized && env.ctxDoneBeforeMonitorDone then some env.ctxErr else none
      if p2.eventStreamClosed then (p2, .panicked)
      else
        let p3 : Prov := { p2 with clientPresent := false, eventStreamClosed := true }
        let finalErr : Option CtxErr :=
          if env.ctxDoneBeforeDestroyDone then
            match monitorErr with
            | some e => some e
            | none => some env.ctxErr
          else monitorErr
        match finalErr with
        | some e => (p3, .ctxError e)
        | none => (p3, .ok)

/-- Reachability invariant tying channel closes to the shutdown flag: both
stopMonitor and eventStream are closed only by the one ShutdownWithContext
call that wins the compare-and-swap, strictly after the flag is set.  New
establishes it with all three false. -/
def LifecycleInv (p : Prov) : Prop :=
  (p.stopMonitorClosed = true → p.shutdown = true) ∧
  (p.eventStreamClosed = true → p.shutdown = true)

/-- One provider operation of a call sequence. -/
inductive Op where
  | opInit (env : InitEnv)
  | opShutdown (env : ShutEnv)
  | opStatus
  | opEmit (e : OFEvent)
  deriving Repr

/-- The observable result of one operation. -/
inductive OpResult where
  | initRes (r : InitResult)
  | shutRes (r : ShutResult)
  | statusRes (s : OFState)
  | emitRes (o : EmitOutcome)
  deriving DecidableEq, Repr

/-- Runs one operation against the provider state. -/
def runOp (p : Prov) : Op → Prov × OpResult
  | .opInit env =>
      let r := initWithContext p env
      (r.1, .initRes r.2.1)
  | .opShutdown env =>
      let r := shutdownWithContext p env
      (r.1, .shutRes r.2)
  | .opStatus => (p, .statusRes (Status p))
  | .opEmit e =>
      let r := emitEvent p e
      (r.1, .emitRes r.2)

/-- Runs a sequence of operations, collecting every result in order. -/
def runTrace (p : Prov) : List Op → Prov × List OpResult
  | [] => (p, [])
  | op :: ops =>
      let s := runOp p op
      let rest := runTrace s.1 ops
      (rest.1, s.2 :: rest.2)

/-- Runs a sequence of ShutdownWithContext calls, collecting every result. -/
def shutdownMany (p : Prov) : List ShutEnv → Prov × List ShutResult
  | [] => (p, [])
  | env :: envs =>
      let s := shutdownWithContext p env
      let rest := shutdownMany s.1 envs
      (rest.1, s.2 :: rest.2)

/-- N concurrent InitWithContext callers.  InitWithContext acquires initMu at
entry and holds it for the whole method (part_006 lines 117-118), including
the initGroup.Do call and the readiness wait inside it, so concurrent callers
never overlap inside the singleflight group: they execute strictly one after
another, each observing the state the previous call left.  The environment is
the external world's behavior (the SDK's readiness outcome), the same for
each serialized call; callers that take the already-ready fast path never
consult it.  Returns the final state, the per-caller results in order, and
the total number of physical BlockUntilReady invocations. -/
def initSerialized (p : Prov) (env : InitEnv) : Nat → Prov × List InitResult × Nat
  | 0 => (p, [], 0)
  | n + 1 =>
      let c := initWithContext p env
      let rest := initSerialized c.1 env n
      (rest.1, c.2.1 :: rest.2.1, c.2.2 + rest.2.2)

/-- Effects of the monitor goroutine visible to the rest of the lifecycle. -/
inductive MonEffect where
  | warnNoFactory
  | warnNoManager
  | logPanicRecovered
  | closeMonitorDone
  | logStopped
  | publishChange (count : Nat)
  deriving DecidableEq, Repr

/-- One iteration of the monitor's select loop: the stop signal, a poll tick
delivering the manager's current name-to-change-number snapshot, or a tick
whose body panics (for example on malformed SDK state). -/
inductive MonTick where
  | stopSignal
  | poll (snapshot : List (String × Int))
  | panicTick
  deriving DecidableEq, Repr

/-- Environment of one monitorSplitUpdates run: whether the factory and its
manager are available, the baseline snapshot captured at start, and the loop
iterations until the stop signal. -/
structure MonEnv where
  factoryPresent : Bool
  managerPresent : Bool
  initialSnapshot : List (String × Int)
  ticks : List MonTick
  deriving Repr

/-- The monitor's select loop (lifecycle_edge_cases_test.go lines 1062-1091):
each poll diffs the current snapshot against the baseline with splitsChanged,
publishing a configuration-changed event and replacing the baseline on a
change; the stop signal (or the end of the run) exits; a panic aborts the
loop, keeping the effects already produced.  Returns the effects and whether
the body ended in a panic. -/
def monitorLoop (last : List (String × Int)) : List MonTick → List MonEffect × Bool
  | [] => ([], false)
  | .stopSignal :: _ => ([], false)
  | .panicTick :: _ => ([], true)
  | .poll snap :: rest =>
      if splitsChanged last snap then
        let r := monitorLoop snap rest
        (.publishChange snap.length :: r.1, r.2)
      else monitorLoop last rest

/-- The body of monitorSplitUpdates before the deferred chain runs: early
returns for a missing factory or manager, otherwise the polling loop. -/
def monitorBody (env : MonEnv) : List MonEffect × Bool :=
  if !env.factoryPresent then ([.warnNoFactory], false)
  else if !env.managerPresent then ([.warnNoManager], false)
  else monitorLoop env.initialSnapshot env.ticks

/-- monitorSplitUpdates (lifecycle_edge_cases_test.go lines 1019-1092): the
deferred function runs on every exit path; it first recovers any panic and
logs it, then closes monitorDone, then logs the stop.  The second component
is whether a panic propagates out of the goroutine: recover runs before
close(monitorDone), so the close always executes and nothing escapes. -/
def monitorSplitUpdates (env : MonEnv) : List MonEffect × Bool :=
  let body := monitorBody env
  (body.1 ++ (if body.2 then [.logPanicRecovered] else []) ++ [.closeMonitorDone, .logStopped],
   false)

/-- A value stored in an of.FlattenedContext: either a string or a value of
some other dynamic type (only string-ness matters to the validation gate). -/
inductive CtxVal where
  | str (s : String)
  | nonStr
  deriving DecidableEq, Repr

/-- of.FlattenedContext, a map from attribute name to value. -/
abbrev FlattenedCtx := List (String × CtxVal)

/-- of.TargetingKey, the attribute name holding the targeting key. -/
def targetingKey : String := "targetingKey"

/-- of.Reason values used by this provider; noReason is the zero value an
empty of.ProviderResolutionDetail carries. -/
inductive Reason where
  | noReason
  | errorReason
  | defaultReason
  | targetingMatchReason
  deriving DecidableEq, Repr

/-- The OpenFeature error codes this provider produces. -/
inductive ErrCode where
  | providerNotReady
  | general
  | targetingKeyMissing
  | invalidContext
  | flagNotFound
  | parseError
  deriving DecidableEq, Repr

/-- of.ProviderResolutionDetail restricted to the fields the lifecycle core
sets: the resolution error (none means the Error() method returns nil), its
message, the reason and the variant.  FlagMetadata, filled by JSON-parsing
the treatment's dynamic configuration, belongs to the out-of-scope value
translation layer and is not modelled. -/
structure ResolutionDetail where
  error : Option ErrCode
  errorMessage : String
  reason : Reason
  variant : String
  deriving DecidableEq, Repr

/-- providerResolutionDetailError (helpers.go lines 366-372). -/
def providerResolutionDetailError (code : ErrCode) (msg : String) (reason : Reason)
    (variant : String) : ResolutionDetail :=
  { error := some code, errorMessage := msg, reason := reason, variant := variant }

/-- resolutionDetailNotFound (helpers.go lines 318-323). -/
def resolutionDetailNotFound (variant : String) : ResolutionDetail :=
  providerResolutionDetailError .flagNotFound "flag not found" .defaultReason variant

/-- resolutionDetailParseError (helpers.go lines 326-331). -/
def resolutionDetailParseError (variant : String) : ResolutionDetail :=
  providerResolutionDetailError .parseError "cannot parse treatment to given type"
    .errorReason variant

/-- resolutionDetailTargetingKeyMissing (helpers.go lines 334-339). -/
def resolutionDetailTargetingKeyMissing : ResolutionDetail :=
  providerResolutionDetailError .targetingKeyMissing "targeting key missing" .errorReason ""

/-- resolutionDetailContextCancelled (helpers.go lines 342-347): a GENERAL
error carrying the context error's message. -/
def resolutionDetailContextCancelled (e : CtxErr) : ResolutionDetail :=
  providerResolutionDetailError .general (ctxErrMessage e) .errorReason ""

/-- resolutionDetailInvalidContext (helpers.go lines 350-355). -/
def resolutionDetailInvalidContext (msg : String) : ResolutionDetail :=
  providerResolutionDetailError .invalidContext msg .errorReason ""

/-- resolutionDetailProviderNotReady (helpers.go lines 358-363). -/
def resolutionDetailProviderNotReady : ResolutionDetail :=
  providerResolutionDetailError .providerNotReady "provider not initialized" .errorReason ""

/-- The empty of.ProviderResolutionDetail returned when validation passes. -/
def emptyResolutionDetail : ResolutionDetail :=
  { error := none, errorMessage := "", reason := .noReason, variant := "" }

/-- validateEvaluationContext (helpers.go lines 247-266), in source order:
Status must be Ready, the context must not be expired, the targeting key must
be present, and it must be a string. -/
def validateEvaluationContext (p : Prov) (ctxErr : Option CtxErr)
    (ec : FlattenedCtx) : ResolutionDetail :=
  if Status p ≠ .ready then resolutionDetailProviderNotReady
  else
    match ctxErr with
    | some e => resolutionDetailContextCancelled e
    | none =>
        match goLookup targetingKey ec with
        | none => resolutionDetailTargetingKeyMissing
        | some (.str _) => emptyResolutionDetail
        | some .nonStr => resolutionDetailInvalidContext "targeting key must be a string"

/-- The result of client.TreatmentWithConfig: the treatment string and the
optional dynamic configuration, supplied by the external Split SDK. -/
structure TreatmentResult where
  treatment : String
  config : Option String
  deriving DecidableEq, Repr

/-- noTreatment (helpers.go lines 269-271). -/
def noTreatment (t : String) : Bool :=
  t = "" || t = controlTreatment

/-- resolutionDetailWithConfig (helpers.go lines 403-423) restricted to the
modelled fields: a TargetingMatch reason and the treatment as variant. -/
def resolutionDetailWithConfig (variant : String) : ResolutionDetail :=
  { error := none, errorMessage := "", reason := .targetingMatchReason, variant := variant }

/-- The value of an unsigned decimal digit run, or none when the run is empty
or holds a non-digit. -/
def digitsVal : List Char → Option Nat
  | [] => none
  | [c] => if c.isDigit then some (c.toNat - 48) else none
  | c :: rest =>
      if c.isDigit then
        match digitsVal rest with
        | some n => some ((c.toNat - 48) * 10 ^ rest.length + n)
        | none => none
      else none

/-- strconv.ParseInt(s, 10, 64): optional sign, decimal digits, and a 64-bit
range check (out-of-range input makes ParseInt return an error, which the
evaluation path treats as a parse failure). -/
def goParseInt (s : String) : Option Int :=
  let signed : Option Int :=
    match s.data with
    | [] => none
    | c :: rest =>
        if c = '-' then (digitsVal rest).map (fun n => -(n : Int))
        else if c = '+' then (digitsVal rest).map (fun n => (n : Int))
        else (digitsVal (c :: rest)).map (fun n => (n : Int))
  match signed with
  | some n => if -(2 ^ 63) ≤ n ∧ n < 2 ^ 63 then some n else none
  | none => none

/-- BooleanEvaluation (evaluation.go lines 31-74): validation first, returning
the caller's default on failure; then control/empty treatments map to flag
not found, "on" and "off" to true and false, and anything else to a parse
error, again with the default.  The treatment is the external SDK's answer,
passed as a parameter. -/
def booleanEvaluation (p : Prov) (ctxErr : Option CtxErr) (defVal : Bool)
    (ec : FlattenedCtx) (result : TreatmentResult) : Bool × ResolutionDetail :=
  let vd := validateEvaluationContext p ctxErr ec
  if vd.error.isSome then (defVal, vd)
  else if noTreatment result.treatment then (defVal, resolutionDetailNotFound result.treatment)
  else if result.treatment = "on" then (true, resolutionDetailWithConfig result.treatment)
  else if result.treatment = "off" then (false, resolutionDetailWithConfig result.treatment)
  else (defVal, resolutionDetailParseError result.treatment)

/-- StringEvaluation (evaluation.go lines 92-122): validation first, then the
treatment itself is the value. -/
def stringEvaluation (p : Prov) (ctxErr : Option CtxErr) (defVal : String)
    (ec : FlattenedCtx) (result : TreatmentResult) : String × ResolutionDetail :=
  let vd := validateEvaluationContext p ctxErr ec
  if vd.error.isSome then (defVal, vd)
  else if noTreatment result.treatment then (defVal, resolutionDetailNotFound result.treatment)
  else (result.treatment, resolutionDetailWithConfig result.treatment)

/-- The shared shape of IntEvaluation and FloatEvaluation (evaluation.go
lines 141-236): validation, the not-found check, then a strconv parse of the
treatment whose failure returns the default with a parse error. -/
def numericEvaluation {α : Type} (parse : String → Option α) (p : Prov)
    (ctxErr : Option CtxErr) (defVal : α) (ec : FlattenedCtx)
    (result : TreatmentResult) : α × ResolutionDetail :=
  let vd := validateEvaluationContext p ctxErr ec
  if vd.error.isSome then (defVal, vd)
  else if noTreatment result.treatment then (defVal, resolutionDetailNotFound result.treatment)
  else
    match parse result.treatment with
    | none => (defVal, resolutionDetailParseError result.treatment)
    | some v => (v, resolutionDetailWithConfig result.treatment)

/-- IntEvaluation (evaluation.go lines 198-236), with strconv.ParseInt. -/
def intEvaluation (p : Prov) (ctxErr : Option CtxErr) (defVal : Int)
    (ec : FlattenedCtx) (result : TreatmentResult) : Int × ResolutionDetail :=
  numericEvaluation goParseInt p ctxErr defVal ec result

/-- FloatEvaluation (evaluation.go lines 141-179): identical shape with
strconv.ParseFloat, an external stdlib routine over IEEE-754 doubles; the
parse function and value carrier are parameters since floating-point parsing
is outside the embedding, and no modelled claim depends on it. -/
def floatEvaluation {α : Type} (parseFloat : String → Option α) (p : Prov)
    (ctxErr : Option CtxErr) (defVal : α) (ec : FlattenedCtx)
    (result : TreatmentResult) : α × ResolutionDetail :=
  numericEvaluation parseFloat p ctxErr defVal ec result

/-- ObjectEvaluation (evaluation.go lines 268-317): validation first with the
default on failure; the per-flag results map comes from the external SDK
(single flag in localhost mode, flag set in cloud mode); an empty map returns
the default with flag-not-found, and otherwise the map is the value. -/
def objectEvaluation (p : Prov) (ctxErr : Option CtxErr) (flag : String)
    (defVal : List (String × TreatmentResult)) (ec : FlattenedCtx)
    (results : List (String × TreatmentResult)) :
    List (String × TreatmentResult) × ResolutionDetail :=
  let vd := validateEvaluationContext p ctxErr ec
  if vd.error.isSome then (defVal, vd)
  else if results.length = 0 then (defVal, resolutionDetailNotFound "")
  else
    (results,
     { error := none, errorMessage := "", reason := .targetingMatchReason, variant := flag })

theorem emitEvent_shutdown_eq {p : Prov} (e : OFEvent) (h : p.shutdown = true) :
    emitEvent p e = (p, .skippedShutdown) := by
  simp [emitEvent, h]

theorem emitEvent_preserves (p : Prov) (e : OFEvent) :
    (emitEvent p e).1.shutdown = p.shutdown ∧
    (emitEvent p e).1.stopMonitorClosed = p.stopMonitorClosed ∧
    (emitEvent p e).1.eventStreamClosed = p.eventStreamClosed ∧
    (emitEvent p e).1.factoryPresent = p.factoryPresent ∧
    (emitEvent p e).1.factoryReady = p.factoryReady := by
  unfold emitEvent
  repeat' split
  all_goals simp

theorem status_of_shutdown {p : Prov} (h : p.shutdown = true) :
    Status p = .notReady := by
  simp [Status, h]

theorem initWithContext_shutdown_eq {p : Prov} (env : InitEnv) (h : p.shutdown = true) :
    initWithContext p env = (p, .alreadyShutdown, 0) := by
  simp [initWithContext, h]

theorem shutdownWithContext_shutdown_eq {p : Prov} (env : ShutEnv) (h : p.shutdown = true) :
    shutdownWithContext p env = (p, .ok) := by
  simp [shutdownWithContext, h]

theorem shutdownWithContext_sets_flag (p : Prov) (env : ShutEnv) :
    (shutdownWithContext p env).1.shutdown = true := by
  unfold shutdownWithContext
  by_cases h : p.shutdown = true
  · simp [h]
  · simp only [Bool.not_eq_true] at h
    simp only [h]
    repeat' split
    all_goals simp_all

theorem runOp_shutdown {p : Prov} (op : Op) (h : p.shutdown = true) :
    (runOp p op).1 = p ∧
    (∀ ir, (runOp p op).2 = OpResult.initRes ir → ir = InitResult.alreadyShutdown) ∧
    (∀ st, (runOp p op).2 = OpResult.statusRes st → st = OFState.notReady) := by
  cases op with
  | opInit env => simp [runOp, initWithContext_shutdown_eq env h]
  | opShutdown env => simp [runOp, shutdownWithContext_shutdown_eq env h]
  | opStatus => simp [runOp, status_of_shutdown h]
  | opEmit e => simp [runOp, emitEvent_shutdown_eq e h]

theorem runTrace_shutdown (ops : List Op) {p : Prov} (h : p.shutdown = true) :
    (runTrace p ops).1.shutdown = true ∧
    ∀ r ∈ (runTrace p ops).2,
      (∀ ir, r = OpResult.initRes ir → ir = InitResult.alreadyShutdown) ∧
      (∀ st, r = OpResult.statusRes st → st = OFState.notReady) := by
  induction ops generalizing p with
  | nil => simpa [runTrace] using h
  | cons op ops ih =>
      obtain ⟨hstate, hinit, hstatus⟩ := runOp_shutdown op h
      have hsh : (runOp p op).1.shutdown = true := by rw [hstate]; exact h
      obtain ⟨h1, h2⟩ := ih hsh
      refine ⟨by simpa [runTrace] using h1, ?_⟩
      intro r hr
      simp only [runTrace, List.mem_cons] at hr
      rcases hr with hr | hr
      · subst hr
        exact ⟨hinit, hstatus⟩
      · exact h2 r hr

/-- C1.  Terminal monotonicity: after any ShutdownWithContext call, across
every later operation sequence the shutdown flag stays set, every later
InitWithContext returns the cannot-initialize-after-shutdown error, and every
later Status read returns NotReadyState; moreover no operation ever clears
the shutdown flag, so it flips false to true at most once. -/
theorem init_fails_and_status_not_ready_after_shutdown (p : Prov) (env : ShutEnv)
    (ops : List Op) :
    (runTrace (shutdownWithContext p env).1 ops).1.shutdown = true ∧
    (∀ r ∈ (runTrace (shutdownWithContext p env).1 ops).2,
      (∀ ir, r = OpResult.initRes ir → ir = InitResult.alreadyShutdown) ∧
      (∀ st, r = OpResult.statusRes st → st = OFState.notReady)) ∧
    (∀ (q : Prov) (op : Op), q.shutdown = true → (runOp q op).1.shutdown = true) := by
  have hflag := shutdownWithContext_sets_flag p env
  obtain ⟨h1, h2⟩ := runTrace_shutdown ops hflag
  refine ⟨h1, h2, ?_⟩
  intro q op hq
  have := (runOp_shutdown op hq).1
  rw [this]
  exact hq

/-- Witness for C1: a concrete shut-down provider on which a later init
fails with the already-shutdown error and a later status read is NotReady. -/
theorem init_fails_and_status_not_ready_after_shutdown_witness :
    (OpResult.initRes InitResult.alreadyShutdown ∈
      (runTrace (shutdownWithContext (newProvider 10) ⟨false, false, .canceled⟩).1
        [Op.opInit ⟨true, some none, none, .canceled, false, true⟩, Op.opStatus]).2 ∧
     OpResult.statusRes OFState.notReady ∈
      (runTrace (shutdownWithContext (newProvider 10) ⟨false, false, .canceled⟩).1
        [Op.opInit ⟨true, some none, none, .canceled, false, true⟩, Op.opStatus]).2) ∧
    InitResult.alreadyShutdown = InitResult.alreadyShutdown ∧
    OFState.notReady = OFState.notReady := by
  refine ⟨⟨by decide, by decide⟩, ?_, ?_⟩
  · exact ((init_fails_and_status_not_ready_after_shutdown (newProvider 10)
      ⟨false, false, .canceled⟩
      [Op.opInit ⟨true, some none, none, .canceled, false, true⟩, Op.opStatus]).2.1
      (OpResult.initRes InitResult.alreadyShutdown) (by decide)).1
      InitResult.alreadyShutdown rfl
  · exact ((init_fails_and_status_not_ready_after_shutdown (newProvider 10)
      ⟨false, false, .canceled⟩
      [Op.opInit ⟨true, some none, none, .canceled, false, true⟩, Op.opStatus]).2.1
      (OpResult.statusRes OFState.notReady) (by decide)).2
      OFState.notReady rfl

/-- C2.  Race favors success: when the caller's context is observed done
first, InitWithContext re-checks the readiness wait; an already-successful
BlockUntilReady yields success despite the expired context (absent a
concurrent shutdown and with the factory confirming ready), an
already-failed BlockUntilReady yields that SDK failure, and only a
still-pending wait yields a cancellation error wrapping the context's
error. -/
theorem init_race_favors_success (p : Prov) (env : InitEnv)
    (hs : p.shutdown = false) (hr : (p.factoryPresent && p.factoryReady) = false)
    (hc : env.ctxDoneFirst = true) :
    (env.readyAtCtxDone = some none → env.shutdownDuringWait = false →
      env.factoryReadyAfterWait = true → (initWithContext p env).2.1 = InitResult.ok) ∧
    (∀ e, env.readyAtCtxDone = some (some e) →
      (initWithContext p env).2.1 = InitResult.sdkNotReady e) ∧
    (env.readyAtCtxDone = none →
      (initWithContext p env).2.1 = InitResult.cancelled env.ctxErr) := by
  refine ⟨?_, ?_, ?_⟩
  · intro h1 h2 h3
    simp [initWithContext, initBody, initAfterWait, hs, hr, hc, h1, h2, h3]
  · intro e h1
    simp [initWithContext, initBody, hs, hr, hc, h1]
  · intro h1
    simp [initWithContext, initBody, hs, hr, hc, h1]

/-- Witness for C2: a fresh provider with an expired context in all three
configurations of the re-checked readiness wait. -/
theorem init_race_favors_success_witness :
    (initWithContext (newProvider 10) ⟨true, some none, none, .canceled, false, true⟩).2.1 =
      InitResult.ok ∧
    (initWithContext (newProvider 10) ⟨true, some (some "timeout"), none, .canceled, false,
      true⟩).2.1 = InitResult.sdkNotReady "timeout" ∧
    (initWithContext (newProvider 10) ⟨true, none, none, .deadlineExceeded, false,
      true⟩).2.1 = InitResult.cancelled CtxErr.deadlineExceeded := by
  refine ⟨?_, ?_, ?_⟩
  · exact (init_race_favors_success (newProvider 10)
      ⟨true, some none, none, .canceled, false, true⟩ rfl rfl rfl).1 rfl rfl rfl
  · exact (init_race_favors_success (newProvider 10)
      ⟨true, some (some "timeout"), none, .canceled, false, true⟩ rfl rfl rfl).2.1
      "timeout" rfl
  · exact (init_race_favors_success (newProvider 10)
      ⟨true, none, none, .deadlineExceeded, false, true⟩ rfl rfl rfl).2.2 rfl

theorem shutdownMany_shutdown (es : List ShutEnv) {q : Prov} (h : q.shutdown = true) :
    (shutdownMany q es).1 = q ∧ ∀ r ∈ (shutdownMany q es).2, r = ShutResult.ok := by
  induction es with
  | nil => simp [shutdownMany]
  | cons env envs ih =>
      have heq := shutdownWithContext_shutdown_eq (p := q) env h
      obtain ⟨h1, h2⟩ := ih
      constructor
      · simp [shutdownMany, heq, h1]
      · intro r hr
        simp only [shutdownMany, heq, List.mem_cons] at hr
        rcases hr with hr | hr
        · simp [hr]
        · exact h2 r hr

/-- C3.  Shutdown idempotence: the compare-and-swap on the shutdown flag
makes the first ShutdownWithContext call the only one that tears down; it
never panics from a reachable state, and every call after it returns nil
immediately with the provider state unchanged, so no monitor-stop signal,
channel close or client destroy is ever repeated. -/
theorem shutdown_idempotent (p : Prov) (e0 : ShutEnv) (es : List ShutEnv)
    (hInv : LifecycleInv p) :
    (shutdownWithContext p e0).2 ≠ ShutResult.panicked ∧
    (shutdownMany (shutdownWithContext p e0).1 es).1 = (shutdownWithContext p e0).1 ∧
    ∀ r ∈ (shutdownMany (shutdownWithContext p e0).1 es).2, r = ShutResult.ok := by
  have hflag := shutdownWithContext_sets_flag p e0
  obtain ⟨h1, h2⟩ := shutdownMany_shutdown es hflag
  refine ⟨?_, h1, h2⟩
  by_cases hs : p.shutdown = true
  · simp [shutdownWithContext_shutdown_eq e0 hs]
  · simp only [Bool.not_eq_true] at hs
    have hsc : p.stopMonitorClosed = false := by
      cases hsc : p.stopMonitorClosed
      · rfl
      · exact absurd (hInv.1 hsc) (by simp [hs])
    have hec : p.eventStreamClosed = false := by
      cases hec : p.eventStreamClosed
      · rfl
      · exact absurd (hInv.2 hec) (by simp [hs])
    unfold shutdownWithContext
    simp only [hs, hsc, hec]
    repeat' split
    all_goals simp_all

/-- Witness for C3: three calls on a fresh provider; the second and third
return nil without changing the state. -/
theorem shutdown_idempotent_witness :
    (shutdownWithContext (newProvider 10) ⟨false, false, .canceled⟩).2 ≠
      ShutResult.panicked ∧
    (shutdownMany (shutdownWithContext (newProvider 10) ⟨false, false, .canceled⟩).1
      [⟨false, false, .canceled⟩, ⟨true, true, .deadlineExceeded⟩]).1 =
      (shutdownWithContext (newProvider 10) ⟨false, false, .canceled⟩).1 ∧
    ∀ r ∈ (shutdownMany (shutdownWithContext (newProvider 10) ⟨false, false, .canceled⟩).1
      [⟨false, false, .canceled⟩, ⟨true, true, .deadlineExceeded⟩]).2, r = ShutResult.ok :=
  shutdown_idempotent (newProvider 10) ⟨false, false, .canceled⟩
    [⟨false, false, .canceled⟩, ⟨true, true, .deadlineExceeded⟩]
    ⟨by simp [newProvider], by simp [newProvider]⟩

/-- C4.  Shutdown is terminal even on error: the flag is set before any
cleanup, so every ShutdownWithContext call leaves the flag set and Status
NotReady; in particular an already-expired context on a Ready provider gets
a deadline error back while the provider is already permanently shut down. -/
theorem shutdown_terminal_even_on_error (p : Prov) (env : ShutEnv) :
    ((shutdownWithContext p env).1.shutdown = true ∧
     Status (shutdownWithContext p env).1 = OFState.notReady) ∧
    (p.shutdown = false → Status p = OFState.ready → LifecycleInv p →
      env.ctxDoneBeforeMonitorDone = true → env.ctxErr = CtxErr.deadlineExceeded →
      (shutdownWithContext p env).2 = ShutResult.ctxError CtxErr.deadlineExceeded) := by
  have hflag := shutdownWithContext_sets_flag p env
  refine ⟨⟨hflag, status_of_shutdown hflag⟩, ?_⟩
  intro hs hready hInv hctx herr
  have hfac : (p.factoryPresent && p.factoryReady) = true := by
    by_contra hcon
    simp only [Bool.not_eq_true] at hcon
    simp [Status, hs, hcon] at hready
  have hsc : p.stopMonitorClosed = false := by
    cases hsc : p.stopMonitorClosed
    · rfl
    · exact absurd (hInv.1 hsc) (by simp [hs])
  have hec : p.eventStreamClosed = false := by
    cases hec : p.eventStreamClosed
    · rfl
    · exact absurd (hInv.2 hec) (by simp [hs])
  unfold shutdownWithContext
  simp only [hs, hsc, hec, hfac, hctx, herr]
  repeat' split
  all_goals simp_all

/-- Witness for C4: a Ready provider shut down with a context that has
already expired; the call reports the deadline yet Status is NotReady. -/
theorem shutdown_terminal_even_on_error_witness :
    ((shutdownWithContext { newProvider 10 with factoryReady := true }
        ⟨true, true, .deadlineExceeded⟩).1.shutdown = true ∧
     Status (shutdownWithContext { newProvider 10 with factoryReady := true }
        ⟨true, true, .deadlineExceeded⟩).1 = OFState.notReady) ∧
    (shutdownWithContext { newProvider 10 with factoryReady := true }
        ⟨true, true, .deadlineExceeded⟩).2 =
      ShutResult.ctxError CtxErr.deadlineExceeded :=
  ⟨(shutdown_terminal_even_on_error { newProvider 10 with factoryReady := true }
      ⟨true, true, .deadlineExceeded⟩).1,
   (shutdown_terminal_even_on_error { newProvider 10 with factoryReady := true }
      ⟨true, true, .deadlineExceeded⟩).2 rfl (by decide)
      ⟨by simp [newProvider], by simp [newProvider]⟩ rfl rfl⟩

theorem initWithContext_success (p : Prov) (env : InitEnv)
    (hs : p.shutdown = false) (hp : p.factoryPresent = true) (hr : p.factoryReady = false)
    (h1 : env.ctxDoneFirst = false) (h2 : env.readyResult = none)
    (h3 : env.shutdownDuringWait = false) (h4 : env.factoryReadyAfterWait = true) :
    (initWithContext p env).2.1 = InitResult.ok ∧
    (initWithContext p env).2.2 = 1 ∧
    (initWithContext p env).1.shutdown = false ∧
    (initWithContext p env).1.factoryPresent = true ∧
    (initWithContext p env).1.factoryReady = true := by
  have hready := emitEvent_preserves
    { p with shutdown := p.shutdown || env.shutdownDuringWait, factoryReady := true }
    readyEvent
  simp only [initWithContext, initBody, initAfterWait, hs, hp, hr, h1, h2, h3, h4]
  simp only [hs, h3] at hready
  simp_all

theorem initWithContext_ready_fast_path (q : Prov) (env : InitEnv)
    (hs : q.shutdown = false) (hready : (q.factoryPresent && q.factoryReady) = true) :
    initWithContext q env = (q, .ok, 0) := by
  simp [initWithContext, hs, hready]

theorem initSerialized_ready (m : Nat) (q : Prov) (env : InitEnv)
    (hs : q.shutdown = false) (hready : (q.factoryPresent && q.factoryReady) = true) :
    initSerialized q env m = (q, List.replicate m .ok, 0) := by
  induction m with
  | zero => simp [initSerialized]
  | succ k ih =>
      simp [initSerialized, initWithContext_ready_fast_path q env hs hready, ih,
        List.replicate_succ]

/-- Counterexample for C5 as stated: initMu is held across initGroup.Do, so
concurrent InitWithContext callers serialize and never share a singleflight
flight; with a readiness wait that fails, two concurrent callers run two
physical BlockUntilReady invocations, not one, and each receives its own
attempt's failure. -/
theorem init_concurrent_not_single_wait :
    (initSerialized (newProvider 10)
      ⟨false, none, some "sdk timeout", .canceled, false, false⟩ 2).2.2 = 2 ∧
    (initSerialized (newProvider 10)
      ⟨false, none, some "sdk timeout", .canceled, false, false⟩ 2).2.2 ≠ 1 ∧
    (initSerialized (newProvider 10)
      ⟨false, none, some "sdk timeout", .canceled, false, false⟩ 2).2.1 =
      [InitResult.sdkNotReady "sdk timeout", InitResult.sdkNotReady "sdk timeout"] := by
  refine ⟨by decide, by decide, by decide⟩

/-- C5 (amended).  Concurrent initialization: initMu serializes the N
concurrent InitWithContext calls; when the readiness wait succeeds, exactly
one physical BlockUntilReady invocation runs in total — the first serialized
caller's — and every one of the N calls returns success, the later ones
through the already-initialized fast path without re-entering the readiness
wait; when the wait fails, each serialized call runs its own physical wait
(see the counterexample). -/
theorem init_serialized_one_wait_on_success (p : Prov) (env : InitEnv) (n : Nat)
    (hn : 0 < n) (hs : p.shutdown = false) (hp : p.factoryPresent = true)
    (hr : p.factoryReady = false) (h1 : env.ctxDoneFirst = false)
    (h2 : env.readyResult = none) (h3 : env.shutdownDuringWait = false)
    (h4 : env.factoryReadyAfterWait = true) :
    (initSerialized p env n).2.2 = 1 ∧
    (initSerialized p env n).2.1 = List.replicate n InitResult.ok := by
  cases n with
  | zero => exact absurd hn (by decide)
  | succ m =>
      obtain ⟨hok, hone, hsh, hfp, hfr⟩ :=
        initWithContext_success p env hs hp hr h1 h2 h3 h4
      have hrest := initSerialized_ready m (initWithContext p env).1 env hsh
        (by simp [hfp, hfr])
      constructor
      · show (initWithContext p env).2.2 +
          (initSerialized (initWithContext p env).1 env m).2.2 = 1
        rw [hone, hrest]
        rfl
      · show (initWithContext p env).2.1 ::
          (initSerialized (initWithContext p env).1 env m).2.1 =
            List.replicate (m + 1) InitResult.ok
        rw [hok, hrest, List.replicate_succ]

/-- Witness for C5 (amended): three concurrent callers on a fresh provider
whose readiness wait succeeds; one physical BlockUntilReady in total and
three successes. -/
theorem init_serialized_one_wait_on_success_witness :
    (initSerialized (newProvider 10) ⟨false, none, none, .canceled, false, true⟩ 3).2.2 =
      1 ∧
    (initSerialized (newProvider 10) ⟨false, none, none, .canceled, false, true⟩ 3).2.1 =
      List.replicate 3 InitResult.ok :=
  init_serialized_one_wait_on_success (newProvider 10)
    ⟨false, none, none, .canceled, false, true⟩ 3 (by decide) rfl rfl rfl rfl rfl rfl rfl

theorem monitorLoop_count_closeDone (ticks : List MonTick) (last : List (String × Int)) :
    (monitorLoop last ticks).1.count MonEffect.closeMonitorDone = 0 := by
  induction ticks generalizing last with
  | nil => simp [monitorLoop]
  | cons t rest ih =>
      cases t with
      | stopSignal => simp [monitorLoop]
      | panicTick => simp [monitorLoop]
      | poll snap =>
          cases h : splitsChanged last snap
          · simp only [monitorLoop, h, Bool.false_eq_true, if_false]
            exact ih last
          · simp only [monitorLoop, h, if_true, List.count_cons]
            simp [ih snap]

/-- C6.  Monitor panic containment: a panic inside monitorSplitUpdates never
propagates out of the goroutine, the deferred chain closes monitorDone
exactly once on every exit path (stop signal, missing factory, missing
manager, or recovered panic), and a recovered panic is logged. -/
theorem monitor_never_blocks_shutdown (env : MonEnv) :
    (monitorSplitUpdates env).2 = false ∧
    (monitorSplitUpdates env).1.count MonEffect.closeMonitorDone = 1 ∧
    ((monitorBody env).2 = true →
      MonEffect.logPanicRecovered ∈ (monitorSplitUpdates env).1) := by
  refine ⟨rfl, ?_, ?_⟩
  · have hbody : (monitorBody env).1.count MonEffect.closeMonitorDone = 0 := by
      unfold monitorBody
      repeat' split
      · simp
      · simp
      · exact monitorLoop_count_closeDone env.ticks env.initialSnapshot
    unfold monitorSplitUpdates
    simp only [List.count_append, hbody]
    cases h : (monitorBody env).2 <;> simp
  · intro h
    unfold monitorSplitUpdates
    simp [h]

/-- Witness for C6: a monitor whose first iteration panics; the panic is
recovered and logged and monitorDone is still closed. -/
theorem monitor_never_blocks_shutdown_witness :
    (monitorBody ⟨true, true, [], [MonTick.panicTick]⟩).2 = true ∧
    MonEffect.logPanicRecovered ∈
      (monitorSplitUpdates ⟨true, true, [], [MonTick.panicTick]⟩).1 :=
  ⟨by decide,
   (monitor_never_blocks_shutdown ⟨true, true, [], [MonTick.panicTick]⟩).2.2 (by decide)⟩

theorem goLookup_mem {β : Type} {k : String} {v : β} {l : List (String × β)}
    (h : goLookup k l = some v) : (k, v) ∈ l := by
  induction l with
  | nil => simp [goLookup] at h
  | cons a rest ih =>
      obtain ⟨k1, v1⟩ := a
      by_cases hk : k1 = k
      · simp only [goLookup, hk, if_pos, Option.some.injEq] at h
        simp [hk, h]
      · simp only [goLookup, hk, if_neg, if_false] at h
        exact List.mem_cons_of_mem _ (ih h)

theorem goLookup_none_iff {β : Type} (k : String) (l : List (String × β)) :
    goLookup k l = none ↔ k ∉ l.map Prod.fst := by
  induction l with
  | nil => simp [goLookup]
  | cons a rest ih =>
      obtain ⟨k1, v1⟩ := a
      by_cases hk : k1 = k
      · simp [goLookup, hk]
      · simp [goLookup, hk, ih, Ne.symm hk]

theorem goLookup_of_mem {β : Type} {k : String} {v : β} {l : List (String × β)}
    (hnd : (l.map Prod.fst).Nodup) (hm : (k, v) ∈ l) :
    goLookup k l = some v := by
  induction l with
  | nil => simp at hm
  | cons a rest ih =>
      obtain ⟨k1, v1⟩ := a
      simp only [List.map_cons, List.nodup_cons] at hnd
      obtain ⟨hk1, hndrest⟩ := hnd
      rcases List.mem_cons.mp hm with heq | hmem
      · obtain ⟨hke, hve⟩ := Prod.mk.injEq .. ▸ heq
        simp [goLookup, hke.symm, hve]
      · have hkne : ¬ k1 = k := by
          intro he
          apply hk1
          subst he
          exact List.mem_map.mpr ⟨(k1, v), hmem, rfl⟩
        simp [goLookup, hkne, ih hndrest hmem]

theorem splitsChanged_false_char (old current : List (String × Int)) :
    splitsChanged old current = false ↔
      (old.length = current.length ∧ ∀ e ∈ current, goLookup e.1 old = some e.2) := by
  by_cases hl : old.length = current.length
  · simp only [splitsChanged, hl, ne_eq, not_true_eq_false, if_false, true_and]
    rw [List.any_eq_false]
    constructor
    · intro h e he
      have hthis := h e he
      cases hlk : goLookup e.1 old with
      | none => rw [hlk] at hthis; simp at hthis
      | some v =>
          rw [hlk] at hthis
          have hv : v = e.2 := by simpa using hthis
          rw [hv]
    · intro h e he
      rw [h e he]
      simp
  · simp [splitsChanged, hl]

/-- C7.  Change detection: splitsChanged returns false exactly when the two
name-to-change-number maps are equal as maps — same key set and the same
change number at every name.  In particular a name present only in old is
detected through the size check, and any size mismatch, missing name or
differing change number yields true. -/
theorem splitsChanged_false_iff_equal (old current : List (String × Int))
    (h1 : (old.map Prod.fst).Nodup) (h2 : (current.map Prod.fst).Nodup) :
    splitsChanged old current = false ↔ ∀ k, goLookup k old = goLookup k current := by
  rw [splitsChanged_false_char]
  constructor
  · rintro ⟨hlen, hentries⟩ k
    have hsub : ∀ x ∈ current.map Prod.fst, x ∈ old.map Prod.fst := by
      intro x hx
      obtain ⟨e, he, hex⟩ := List.mem_map.mp hx
      subst hex
      exact List.mem_map.mpr ⟨(e.1, e.2), goLookup_mem (hentries e he), rfl⟩
    have hcardA : (current.map Prod.fst).toFinset.card = current.length := by
      rw [List.toFinset_card_of_nodup h2, List.length_map]
    have hcardB : (old.map Prod.fst).toFinset.card = old.length := by
      rw [List.toFinset_card_of_nodup h1, List.length_map]
    have hfsub : (current.map Prod.fst).toFinset ⊆ (old.map Prod.fst).toFinset := by
      intro x hx
      exact List.mem_toFinset.mpr (hsub x (List.mem_toFinset.mp hx))
    have hfeq : (current.map Prod.fst).toFinset = (old.map Prod.fst).toFinset :=
      Finset.eq_of_subset_of_card_le hfsub (by rw [hcardA, hcardB, hlen])
    cases hc : goLookup k current with
    | some v =>
        have hmem := goLookup_mem hc
        exact hentries (k, v) hmem
    | none =>
        rw [(goLookup_none_iff k old).mpr ?_]
        have hkc : k ∉ (current.map Prod.fst) := (goLookup_none_iff k current).mp hc
        intro hko
        exact hkc (List.mem_toFinset.mp (hfeq ▸ List.mem_toFinset.mpr hko))
  · intro hall
    have hkeys : ∀ x, x ∈ old.map Prod.fst ↔ x ∈ current.map Prod.fst := by
      intro x
      rw [← not_iff_not, ← goLookup_none_iff, ← goLookup_none_iff, hall x]
    constructor
    · have hfeq : (old.map Prod.fst).toFinset = (current.map Prod.fst).toFinset := by
        apply Finset.ext
        intro x
        rw [List.mem_toFinset, List.mem_toFinset]
        exact hkeys x
      have := congrArg Finset.card hfeq
      rwa [List.toFinset_card_of_nodup h1, List.toFinset_card_of_nodup h2,
        List.length_map, List.length_map] at this
    · intro e he
      rw [hall e.1]
      exact goLookup_of_mem h2 (by simpa using he)

/-- Witness for C7: a pair of maps where a name is present only in old
(detected as changed), and an equal pair (not changed). -/
theorem splitsChanged_false_iff_equal_witness :
    splitsChanged [("a", 1), ("b", 2)] [("a", 1)] = true ∧
    splitsChanged [("a", 1), ("b", 2)] [("b", 2), ("a", 1)] = false := by
  constructor
  · have h := splitsChanged_false_iff_equal [("a", 1), ("b", 2)] [("a", 1)]
      (by decide) (by decide)
    cases hc : splitsChanged [("a", 1), ("b", 2)] [("a", 1)]
    · exact absurd (h.mp hc "b") (by decide)
    · rfl
  · refine (splitsChanged_false_iff_equal [("a", 1), ("b", 2)] [("b", 2), ("a", 1)]
      (by decide) (by decide)).mpr ?_
    intro k
    by_cases ha : "a" = k
    · by_cases hb : "b" = k
      · exact absurd (ha.trans hb.symm) (by decide)
      · simp [goLookup, ha, hb]
    · by_cases hb : "b" = k
      · simp [goLookup, ha, hb]
      · simp [goLookup, ha, hb]

/-- C8.  Evaluation gate: validateEvaluationContext checks readiness, then
context expiry, then targeting-key presence, then targeting-key type, in that
order, producing PROVIDER_NOT_READY, GENERAL, TARGETING_KEY_MISSING and
INVALID_CONTEXT errors respectively and an empty detail otherwise; and every
evaluation method returns the caller-supplied default paired with the
validation detail whenever validation fails. -/
theorem evaluation_gate_order_and_defaults (p : Prov) (ctxErr : Option CtxErr)
    (ec : FlattenedCtx) :
    (Status p ≠ OFState.ready →
      validateEvaluationContext p ctxErr ec = resolutionDetailProviderNotReady) ∧
    (∀ e, Status p = OFState.ready → ctxErr = some e →
      validateEvaluationContext p ctxErr ec = resolutionDetailContextCancelled e) ∧
    (Status p = OFState.ready → ctxErr = none → goLookup targetingKey ec = none →
      validateEvaluationContext p ctxErr ec = resolutionDetailTargetingKeyMissing) ∧
    (Status p = OFState.ready → ctxErr = none →
      goLookup targetingKey ec = some CtxVal.nonStr →
      validateEvaluationContext p ctxErr ec =
        resolutionDetailInvalidContext "targeting key must be a string") ∧
    (∀ s, Status p = OFState.ready → ctxErr = none →
      goLookup targetingKey ec = some (CtxVal.str s) →
      validateEvaluationContext p ctxErr ec = emptyResolutionDetail) ∧
    ((validateEvaluationContext p ctxErr ec).error.isSome = true →
      ∀ (bDef : Bool) (sDef : String) (iDef : Int)
        (oDef results : List (String × TreatmentResult)) (flag : String)
        (r : TreatmentResult),
        booleanEvaluation p ctxErr bDef ec r =
          (bDef, validateEvaluationContext p ctxErr ec) ∧
        stringEvaluation p ctxErr sDef ec r =
          (sDef, validateEvaluationContext p ctxErr ec) ∧
        intEvaluation p ctxErr iDef ec r =
          (iDef, validateEvaluationContext p ctxErr ec) ∧
        (∀ (α : Type) (parseFloat : String → Option α) (fDef : α),
          floatEvaluation parseFloat p ctxErr fDef ec r =
            (fDef, validateEvaluationContext p ctxErr ec)) ∧
        objectEvaluation p ctxErr flag oDef ec results =
          (oDef, validateEvaluationContext p ctxErr ec)) := by
  refine ⟨?_, ?_, ?_, ?_, ?_, ?_⟩
  · intro h
    simp [validateEvaluationContext, h]
  · intro e hst he
    simp [validateEvaluationContext, hst, he]
  · intro hst he hk
    simp [validateEvaluationContext, hst, he, hk]
  · intro hst he hk
    simp [validateEvaluationContext, hst, he, hk]
  · intro s hst he hk
    simp [validateEvaluationContext, hst, he, hk]
  · intro hfail bDef sDef iDef oDef results flag r
    refine ⟨?_, ?_, ?_, ?_, ?_⟩
    · simp [booleanEvaluation, hfail]
    · simp [stringEvaluation, hfail]
    · simp [intEvaluation, numericEvaluation, hfail]
    · intro α parseFloat fDef
      simp [floatEvaluation, numericEvaluation, hfail]
    · simp [objectEvaluation, hfail]

/-- Witness for C8: the four validation failures and the pass case at
concrete inputs, and the default-return behavior of all five evaluation
methods on a not-ready provider. -/
theorem evaluation_gate_order_and_defaults_witness :
    validateEvaluationContext (newProvider 10) none [] =
      resolutionDetailProviderNotReady ∧
    validateEvaluationContext { newProvider 10 with factoryReady := true }
      (some .canceled) [] = resolutionDetailContextCancelled .canceled ∧
    validateEvaluationContext { newProvider 10 with factoryReady := true } none [] =
      resolutionDetailTargetingKeyMissing ∧
    validateEvaluationContext { newProvider 10 with factoryReady := true } none
      [("targetingKey", CtxVal.nonStr)] =
      resolutionDetailInvalidContext "targeting key must be a string" ∧
    validateEvaluationContext { newProvider 10 with factoryReady := true } none
      [("targetingKey", CtxVal.str "user-1")] = emptyResolutionDetail ∧
    booleanEvaluation (newProvider 10) none true [] ⟨"on", none⟩ =
      (true, validateEvaluationContext (newProvider 10) none []) ∧
    stringEvaluation (newProvider 10) none "dflt" [] ⟨"on", none⟩ =
      ("dflt", validateEvaluationContext (newProvider 10) none []) ∧
    intEvaluation (newProvider 10) none 7 [] ⟨"3", none⟩ =
      (7, validateEvaluationContext (newProvider 10) none []) ∧
    floatEvaluation (fun _ => (none : Option Int)) (newProvider 10) none 7 [] ⟨"3", none⟩ =
      (7, validateEvaluationContext (newProvider 10) none []) ∧
    objectEvaluation (newProvider 10) none "flagset" [] [] [("f", ⟨"on", none⟩)] =
      ([], validateEvaluationContext (newProvider 10) none []) := by
  have hko := evaluation_gate_order_and_defaults (newProvider 10) none []
  have hrdy := evaluation_gate_order_and_defaults
    { newProvider 10 with factoryReady := true } (some .canceled) []
  have hmiss := evaluation_gate_order_and_defaults
    { newProvider 10 with factoryReady := true } none []
  have hbad := evaluation_gate_order_and_defaults
    { newProvider 10 with factoryReady := true } none [("targetingKey", CtxVal.nonStr)]
  have hgood := evaluation_gate_order_and_defaults
    { newProvider 10 with factoryReady := true } none
    [("targetingKey", CtxVal.str "user-1")]
  obtain ⟨hd1, hd2, hd3, hd4, hd5⟩ := hko.2.2.2.2.2 (by decide) true "dflt" 7 []
    [("f", ⟨"on", none⟩)] "flagset" ⟨"on", none⟩
  refine ⟨hko.1 (by decide), hrdy.2.1 .canceled (by decide) rfl,
    hmiss.2.2.1 (by decide) rfl rfl, hbad.2.2.2.1 (by decide) rfl (by decide),
    hgood.2.2.2.2.1 "user-1" (by decide) rfl (by decide), hd1, hd2, ?_, ?_, ?_⟩
  · exact (evaluation_gate_order_and_defaults (newProvider 10) none
      []).2.2.2.2.2 (by decide) true "dflt" 7 [] [("f", ⟨"on", none⟩)] "flagset"
      ⟨"3", none⟩ |>.2.2.1
  · exact ((evaluation_gate_order_and_defaults (newProvider 10) none
      []).2.2.2.2.2 (by decide) true "dflt" 7 [] [("f", ⟨"on", none⟩)] "flagset"
      ⟨"3", none⟩ |>.2.2.2.1) Int (fun _ => none) 7
  · exact hd5

/-- The state after one emitEvent call when the provider is live and the
channel open: the event is appended when the buffer has room, and the state
is unchanged with a logged drop otherwise. -/
theorem emitEvent_live (p : Prov) (e : OFEvent) (hs : p.shutdown = false)
    (hc : p.eventStreamClosed = false) :
    emitEvent p e =
      (if p.eventQueue.length < eventChannelBuffer then
        ({ p with eventQueue := p.eventQueue ++ [e] }, EmitOutcome.sent)
      else (p, EmitOutcome.droppedWarned)) := by
  by_cases hlt : p.eventQueue.length < eventChannelBuffer
  · simp [emitEvent, hs, hc, hlt]
  · simp [emitEvent, hs, hc, hlt]

theorem emitMany_length (es : List OFEvent) (p : Prov) (hs : p.shutdown = false)
    (hc : p.eventStreamClosed = false)
    (hb : p.eventQueue.length ≤ eventChannelBuffer) :
    (emitMany p es).eventQueue.length =
      min (p.eventQueue.length + es.length) eventChannelBuffer := by
  induction es generalizing p with
  | nil =>
      simp only [emitMany, List.length_nil, Nat.add_zero]
      omega
  | cons e rest ih =>
      by_cases hlt : p.eventQueue.length < eventChannelBuffer
      · have hstep : (emitEvent p e).1 = { p with eventQueue := p.eventQueue ++ [e] } := by
          rw [emitEvent_live p e hs hc]
          simp [hlt]
        have hrec := ih { p with eventQueue := p.eventQueue ++ [e] } hs hc
          (by simp; omega)
        show (emitMany (emitEvent p e).1 rest).eventQueue.length = _
        rw [hstep, hrec]
        simp
        omega
      · have hstep : (emitEvent p e).1 = p := by
          rw [emitEvent_live p e hs hc]
          simp [hlt]
        have hrec := ih p hs hc hb
        show (emitMany (emitEvent p e).1 rest).eventQueue.length = _
        rw [hstep, hrec]
        simp only [List.length_cons]
        omega

set_option maxRecDepth 10000 in
/-- Counterexample for C9 as stated: the event channel's capacity constant is
128, not 100, so publishing 150 events into the fresh provider's bus with no
consumer retains 128 events, not 100. -/
theorem event_bus_capacity_128_not_100 :
    eventChannelBuffer = 128 ∧ eventChannelBuffer ≠ 100 ∧
    (emitMany (newProvider 10) (List.replicate 150 readyEvent)).eventQueue.length = 128 ∧
    (emitMany (newProvider 10) (List.replicate 150 readyEvent)).eventQueue.length ≠ 100 := by
  have h := emitMany_length (List.replicate 150 readyEvent) (newProvider 10) rfl rfl
    (by simp [newProvider, eventChannelBuffer])
  have h128 : (emitMany (newProvider 10)
      (List.replicate 150 readyEvent)).eventQueue.length = 128 := by
    rw [h]
    simp [newProvider, eventChannelBuffer]
  exact ⟨rfl, by decide, h128, by rw [h128]; decide⟩

/-- C9 (amended).  Bounded non-blocking publish: the event channel has the
fixed capacity eventChannelBuffer = 128; emitEvent never blocks — with room
in the buffer the event is retained, and once the buffer is full each further
call drops its event and logs a warning — so publishing k events into the
empty bus with no draining consumer retains exactly min(k, 128); in
particular 150 publishes retain exactly 128 events, not 100. -/
theorem event_publish_bounded_nonblocking (p : Prov) (es : List OFEvent)
    (hs : p.shutdown = false) (hc : p.eventStreamClosed = false)
    (hq : p.eventQueue = []) :
    (emitMany p es).eventQueue.length = min es.length eventChannelBuffer ∧
    (∀ (q : Prov) (e : OFEvent), q.shutdown = false → q.eventStreamClosed = false →
      q.eventQueue.length < eventChannelBuffer → (emitEvent q e).2 = EmitOutcome.sent) ∧
    (∀ (q : Prov) (e : OFEvent), q.shutdown = false → q.eventStreamClosed = false →
      ¬ q.eventQueue.length < eventChannelBuffer →
      emitEvent q e = (q, EmitOutcome.droppedWarned)) := by
  refine ⟨?_, ?_, ?_⟩
  · have h := emitMany_length es p hs hc (by simp [hq, eventChannelBuffer])
    rw [h, hq]
    simp
  · intro q e hqs hqc hlt
    rw [emitEvent_live q e hqs hqc]
    simp [hlt]
  · intro q e hqs hqc hlt
    rw [emitEvent_live q e hqs hqc]
    simp [hlt]

/-- Witness for C9 (amended): 150 publishes into the fresh provider retain
exactly min(150, 128) = 128 events, and a full buffer drops with a warning. -/
theorem event_publish_bounded_nonblocking_witness :
    (emitMany (newProvider 10) (List.replicate 150 readyEvent)).eventQueue.length =
      min (List.replicate 150 readyEvent).length eventChannelBuffer ∧
    emitEvent { newProvider 10 with eventQueue := List.replicate 128 readyEvent }
      readyEvent =
      ({ newProvider 10 with eventQueue := List.replicate 128 readyEvent },
        EmitOutcome.droppedWarned) := by
  obtain ⟨h1, _, h3⟩ := event_publish_bounded_nonblocking (newProvider 10)
    (List.replicate 150 readyEvent) rfl rfl rfl
  exact ⟨h1, h3 { newProvider 10 with eventQueue := List.replicate 128 readyEvent }
    readyEvent rfl rfl (by simp [eventChannelBuffer])⟩

/-- C10.  Publish after shutdown is a silent no-op: with the shutdown flag
set, emitEvent returns immediately with the state unchanged — no channel
send, no drop warning; and under the lifecycle invariant that the event
channel is closed only after the flag is set, no emitEvent call can ever
panic by sending on a closed channel.  ShutdownWithContext and emitEvent
both preserve that invariant. -/
theorem emit_after_shutdown_silent_noop (p : Prov) (e : OFEvent) :
    (p.shutdown = true → emitEvent p e = (p, EmitOutcome.skippedShutdown)) ∧
    (LifecycleInv p → (emitEvent p e).2 ≠ EmitOutcome.panicked) ∧
    (∀ env, LifecycleInv (shutdownWithContext p env).1) ∧
    (LifecycleInv p → LifecycleInv (emitEvent p e).1) := by
  refine ⟨fun h => emitEvent_shutdown_eq e h, ?_, ?_, ?_⟩
  · intro hInv
    by_cases hs : p.shutdown = true
    · simp [emitEvent_shutdown_eq e hs]
    · simp only [Bool.not_eq_true] at hs
      have hec : p.eventStreamClosed = false := by
        cases hec : p.eventStreamClosed
        · rfl
        · exact absurd (hInv.2 hec) (by simp [hs])
      rw [emitEvent_live p e hs hec]
      by_cases hlt : p.eventQueue.length < eventChannelBuffer
      · simp [hlt]
      · simp [hlt]
  · intro env
    have hflag := shutdownWithContext_sets_flag p env
    exact ⟨fun _ => hflag, fun _ => hflag⟩
  · intro hInv
    obtain ⟨hsh, hsm, hes, _, _⟩ := emitEvent_preserves p e
    constructor
    · intro h
      rw [hsh]
      exact hInv.1 (hsm ▸ h)
    · intro h
      rw [hsh]
      exact hInv.2 (hes ▸ h)

/-- Witness for C10: a provider with the flag set skips the publish with no
warning; the invariant holds on a fresh provider, so no panic occurs. -/
theorem emit_after_shutdown_silent_noop_witness :
    emitEvent { newProvider 10 with shutdown := true } readyEvent =
      ({ newProvider 10 with shutdown := true }, EmitOutcome.skippedShutdown) ∧
    (emitEvent { newProvider 10 with shutdown := true } readyEvent).2 ≠
      EmitOutcome.panicked ∧
    LifecycleInv (emitEvent { newProvider 10 with shutdown := true } readyEvent).1 := by
  have h := emit_after_shutdown_silent_noop { newProvider 10 with shutdown := true }
    readyEvent
  have hInv : LifecycleInv { newProvider 10 with shutdown := true } :=
    ⟨fun _ => rfl, fun _ => rfl⟩
  exact ⟨h.1 rfl, h.2.1 hInv, h.2.2.2 hInv⟩

end SplitOFP
